import Mathlib

/-!
Shallow embedding of the nifty-levels-generator aggregation engine
(`generate_excel.py`) and proofs checking the natural-language
specification against it.

Numbers are modelled as rationals (`ℚ`): the source works with Python /
pandas floats but every operation it performs (addition, division,
comparison with 0) is exact on the inputs the claims are about, and the
division-by-zero conventions of pandas (`inf`/`NaN` replaced by `0`) are
made explicit below.
-/

namespace NiftyLevels

/-- Python `str.lower()`: lowercases every character. -/
def lowerStr (s : String) : String := String.mk (s.data.map Char.toLower)

/-- Python `str.startswith(pre)` / the anchored regex prefix match. -/
def startsWithStr (s pre : String) : Bool := pre.data.isPrefixOf s.data

/-- Python `str.strip()`: drops leading and trailing whitespace. -/
def trimStr (s : String) : String :=
  String.mk (((s.data.dropWhile Char.isWhitespace).reverse.dropWhile
    Char.isWhitespace).reverse)

/-- Option side: CE (call) or PE (put). -/
inductive Side
  | call
  | put
deriving DecidableEq, Repr

/-- One normalized per-(day, strike) record, the row
`['Strike', 'Call_Chg_OI_Val', 'Call_VWAP', 'Call_LTP',
   'Put_Chg_OI_Val', 'Put_VWAP', 'Put_LTP']`
produced by `process_sheet_data`. -/
structure DailyRecord where
  strike : ℚ
  callMoney : ℚ
  callVWAP : ℚ
  callLTP : ℚ
  putMoney : ℚ
  putVWAP : ℚ
  putLTP : ℚ
deriving DecidableEq, Repr

/-- The `Chg in OI Value` money of the given side. -/
def DailyRecord.money (r : DailyRecord) : Side → ℚ
  | Side.call => r.callMoney
  | Side.put => r.putMoney

/-- The `VWAP` of the given side. -/
def DailyRecord.vwap (r : DailyRecord) : Side → ℚ
  | Side.call => r.callVWAP
  | Side.put => r.putVWAP

/-- The `LTP (Chg %)` of the given side. -/
def DailyRecord.ltp (r : DailyRecord) : Side → ℚ
  | Side.call => r.callLTP
  | Side.put => r.putLTP

/-- One parsed day sheet: the list of its records (unique strikes,
sheet row order). -/
abbrev DaySheet := List DailyRecord

/-- The record of strike `s` in one day sheet, if any
(`combined[combined['Sheet_Name'] == sheet]` restricted to one strike;
strikes are unique within a sheet after `drop_duplicates`). -/
def findRecord (d : DaySheet) (s : ℚ) : Option DailyRecord :=
  d.find? (fun r => decide (r.strike = s))

/-- The record of the earliest day (in sheet order) on which strike `s`
appears: `group.sort_values('Sheet_Index').iloc[0]` of
`combined.groupby('Strike')`. -/
def firstRecord : List DaySheet → ℚ → Option DailyRecord
  | [], _ => none
  | d :: rest, s =>
    match findRecord d s with
    | some r => some r
    | none => firstRecord rest s

/-- Per-strike pricing mode: `'LTP'` (force LTP) or `'Standard'`. -/
inductive PricingMode
  | standard
  | forceLTP
deriving DecidableEq, Repr

/-- The per-strike mode decision of `process_excel_file`: the earliest
record of the strike decides; its call VWAP `≤ 0` forces LTP.  A strike
with no record at all falls back to the `strike_pricing_mode.get(strike,
'Standard')` default. -/
def pricingMode (days : List DaySheet) (s : ℚ) : PricingMode :=
  match firstRecord days s with
  | none => PricingMode.standard
  | some r => if r.callVWAP ≤ 0 then PricingMode.forceLTP else PricingMode.standard

/-- The reference price `get_ref_price` assigns to one record on one
side: LTP under forced-LTP mode, else VWAP when positive, else LTP. -/
def refPrice (mode : PricingMode) (side : Side) (r : DailyRecord) : ℚ :=
  match mode with
  | PricingMode.forceLTP => r.ltp side
  | PricingMode.standard => if 0 < r.vwap side then r.vwap side else r.ltp side

/-- The per-strike, per-side running state the day loop of
`process_excel_file` carries: cumulative money, reference-price running
sum, and the count of days whose reference price was positive. -/
structure SideState where
  money : ℚ
  refSum : ℚ
  refCount : ℕ
deriving DecidableEq, Repr

/-- The zero state the trackers are initialized with. -/
def SideState.init : SideState := ⟨0, 0, 0⟩

/-- One day-loop update for one strike and side.  An absent strike
(reindexed row of `NaN`s) leaves the state unchanged (`fillna(0)` on the
money and the reference sum, mask false for the count).  A present
record adds its money unconditionally, adds its reference price to the
sum unconditionally (`day_data['Call_Ref_Price'].fillna(0)`), and bumps
the count only when the reference price is positive (`valid_ce_mask`). -/
def SideState.step (mode : PricingMode) (side : Side) (st : SideState) :
    Option DailyRecord → SideState
  | none => st
  | some r =>
    { money := st.money + r.money side
      refSum := st.refSum + refPrice mode side r
      refCount := st.refCount + (if 0 < refPrice mode side r then 1 else 0) }

/-- The running average `cum_ref_sum.div(cum_ref_count)` with pandas'
`inf`/`NaN` results (division by a zero count) replaced by `0`. -/
def SideState.avg (st : SideState) : ℚ :=
  if st.refCount = 0 then 0 else st.refSum / (st.refCount : ℚ)

/-- The sequential day loop threading the state for one strike and side
through a list of day sheets. -/
def foldState (mode : PricingMode) (side : Side) (s : ℚ) (st : SideState) :
    List DaySheet → SideState
  | [] => st
  | d :: rest => foldState mode side s (SideState.step mode side st (findRecord d s)) rest

/-- The state of strike `s` on the given side after folding the first
`k` day sheets. -/
def stateAfter (days : List DaySheet) (s : ℚ) (side : Side) (k : ℕ) : SideState :=
  foldState (pricingMode days s) side s SideState.init (days.take k)

/-- One row of one day block of the `Total` sheet, together with the
auxiliary averages stored for the `Max` sheet
(`subset[['CE BEP','CE Money','PE Money','PE BEP','Avg CE Ref','Avg PE Ref']]`). -/
structure Snapshot where
  ceBEP : ℚ
  ceMoney : ℚ
  peMoney : ℚ
  peBEP : ℚ
  avgCE : ℚ
  avgPE : ℚ
deriving DecidableEq, Repr

/-- Builds the day-block row of strike `s` from the two side states. -/
def mkSnapshot (s : ℚ) (cst pst : SideState) : Snapshot :=
  { ceBEP := s + cst.avg
    ceMoney := cst.money
    peMoney := pst.money
    peBEP := s - pst.avg
    avgCE := cst.avg
    avgPE := pst.avg }

/-- The day loop emitting one snapshot per day sheet for one strike,
starting from the given side states. -/
def snapsFrom (mode : PricingMode) (s : ℚ) (cst pst : SideState) :
    List DaySheet → List Snapshot
  | [] => []
  | d :: rest =>
    let c2 := SideState.step mode Side.call cst (findRecord d s)
    let p2 := SideState.step mode Side.put pst (findRecord d s)
    mkSnapshot s c2 p2 :: snapsFrom mode s c2 p2 rest

/-- The per-day snapshots of one strike, one per day sheet, in day
order: the strike's row of every day block of the `Total` sheet. -/
def snapshots (days : List DaySheet) (s : ℚ) : List Snapshot :=
  snapsFrom (pricingMode days s) s SideState.init SideState.init days

/-- All strikes of all day sheets, with repetition, in sheet order. -/
def allStrikes : List DaySheet → List ℚ
  | [] => []
  | d :: rest => d.map (fun r => r.strike) ++ allStrikes rest

/-- Stable insertion into a list sorted descending by `key`: the new
element goes before the first element whose key is `≤` its own, hence
before every equal-keyed element already present. -/
def insertDesc (key : α → ℚ) (x : α) : List α → List α
  | [] => [x]
  | y :: ys => if key y ≤ key x then x :: y :: ys else y :: insertDesc key x ys

/-- Descending sort by `key`, the embedding of pandas
`sort_values(..., ascending=False)`.  The source uses the default
`kind='quicksort'`, whose order among equal keys is not specified by
pandas; this model fixes one concrete order (a stable one), and nothing
proved below about the pipeline depends on which order equal keys take —
the downstream uses sort tie-free keys or are permutation-invariant. -/
def sortDesc (key : α → ℚ) : List α → List α
  | [] => []
  | x :: xs => insertDesc key x (sortDesc key xs)

/-- The strike universe: `sorted(combined['Strike'].unique())`, the
deduplicated strikes of all day sheets in ascending order. -/
def strikeUniverse (days : List DaySheet) : List ℚ :=
  sortDesc (fun q => -q) (allStrikes days).dedup

/-- One row of the per-day cumulative frame handed to `get_top5_df`:
strike index, that side's cumulative money and running-average
reference price. -/
structure SnapRow where
  strike : ℚ
  money : ℚ
  ref : ℚ
deriving DecidableEq, Repr

/-- The day-`k` cumulative frame for one side over the whole strike
universe, in ascending strike order (the index of `base_df`). -/
def dayRows (days : List DaySheet) (side : Side) (k : ℕ) : List SnapRow :=
  (strikeUniverse days).map (fun s =>
    { strike := s
      money := (stateAfter days s side k).money
      ref := (stateAfter days s side k).avg })

/-- One row of one side's ranked table on the `Max` sheet: a data row
`[strike, money, ref, bep]`, a `NaN` padding row, or the totals row
`[NaN, money_sum, NaN, NaN]`. -/
inductive MaxRow
  | data (strike money ref bep : ℚ)
  | blank
  | total (money : ℚ)
deriving DecidableEq, Repr

/-- Whether a `Max` row is a ranked data row. -/
def MaxRow.isData : MaxRow → Bool
  | MaxRow.data _ _ _ _ => true
  | _ => false

/-- Whether a `Max` row is a padding row. -/
def MaxRow.isBlank : MaxRow → Bool
  | MaxRow.blank => true
  | _ => false

/-- The strike of a ranked data row, if the row is one. -/
def MaxRow.dataStrike : MaxRow → Option ℚ
  | MaxRow.data s _ _ _ => some s
  | _ => none

/-- Break-even price of a strike from a reference premium:
`strike + ref` on the call side, `strike - ref` on the put side. -/
def bepOf : Side → ℚ → ℚ → ℚ
  | Side.call, s, ref => s + ref
  | Side.put, s, ref => s - ref

/-- One side of `get_top5_df`: sort the day's frame descending by that
side's cumulative money, keep the first 5, re-sort them by strike
descending for display, pad with blank rows up to 5, and append a totals
row holding the sum of the selected (at most 5) money values. -/
def top5Side (rows : List SnapRow) (side : Side) : List MaxRow :=
  let sel := (sortDesc (fun r => r.money) rows).take 5
  let sel2 := sortDesc (fun r => r.strike) sel
  let dataRows := sel2.map (fun r => MaxRow.data r.strike r.money r.ref (bepOf side r.strike r.ref))
  (dataRows ++ List.replicate (5 - dataRows.length) MaxRow.blank)
    ++ [MaxRow.total ((sel.map (fun r => r.money)).sum)]

/-! ### Sheet parsing (`process_sheet_data`) -/

/-- One spreadsheet cell, as `pd.to_numeric(..., errors='coerce')` sees
it: `num q` is any cell that coerces to the number `q` (a numeric cell
or a numeric string), `text s` is a string cell that fails numeric
coercion, `empty` is a missing cell (`NaN`). -/
inductive Cell
  | num (q : ℚ)
  | text (s : String)
  | empty
deriving DecidableEq, Repr

/-- The cell as the header scan sees it: `row.astype(str).str.lower()`.
The string form of a numeric or missing cell is never one of the header
markers, so those are modelled by non-marker placeholders. -/
def Cell.lowerStr : Cell → String
  | Cell.num _ => "#"
  | Cell.text s => NiftyLevels.lowerStr s
  | Cell.empty => "nan"

/-- The cell as a column name when its row is used as the header.  A
numeric or missing header cell never yields a required column name, so
those are modelled by a placeholder. -/
def Cell.headerStr : Cell → String
  | Cell.num _ => "#"
  | Cell.text s => s
  | Cell.empty => "#unnamed"

/-- Numeric coercion of a cell, `pd.to_numeric(..., errors='coerce')`:
`none` is pandas `NaN`. -/
def Cell.toNum? : Cell → Option ℚ
  | Cell.num q => some q
  | _ => none

/-- One raw sheet: its rows of cells, top to bottom. -/
abbrev RawSheet := List (List Cell)

/-- Whether a preview row contains one of the two header markers
(`'strike' in row_str or 'chg in oi value' in row_str`). -/
def isMarkerRow (row : List Cell) : Bool :=
  row.any (fun c => c.lowerStr == "strike" || c.lowerStr == "chg in oi value")

/-- The header scan: the first of the first 10 rows containing a
marker, if any. -/
def findHeaderRow (sheet : RawSheet) : Option ℕ :=
  (sheet.take 10).findIdx? isMarkerRow

/-- Pandas duplicate-column mangling at read time: a repeated column
name gets a `.1` suffix. -/
def mangleAux (seen : List String) : List String → List String
  | [] => []
  | s :: rest => (if s ∈ seen then s ++ ".1" else s) :: mangleAux (s :: seen) rest

/-- Mangles a header-name list, second occurrences suffixed `.1`. -/
def mangle (l : List String) : List String := mangleAux [] l

/-- The column names of a sheet: the header row's cells as strings,
duplicate-mangled by the read, then stripped
(`df.columns.astype(str).str.strip()`). -/
def sheetCols (sheet : RawSheet) : List String :=
  match findHeaderRow sheet with
  | none => []
  | some h => (mangle ((sheet.getD h []).map Cell.headerStr)).map trimStr

/-- The numeric value of the named column in a data row:
`pd.to_numeric(df.get(name, 0), errors='coerce')` followed by
`fillna(0)` — a missing column, a missing cell and a failed coercion all
yield `0`. -/
def colVal (cols : List String) (row : List Cell) (name : String) : ℚ :=
  match cols.findIdx? (fun c => c == name) with
  | none => 0
  | some i => ((row.getD i Cell.empty).toNum?).getD 0

/-- Builds the normalized record of one data row.  A row whose `Strike`
cell is missing or fails coercion is dropped
(`df.dropna(subset=['Strike'])`); a missing `Strike` column is a sheet
failure handled in `process_sheet_data`. -/
def buildRecord (cols : List String) (row : List Cell) : Option DailyRecord :=
  match cols.findIdx? (fun c => c == "Strike") with
  | none => none
  | some i =>
    match (row.getD i Cell.empty).toNum? with
    | none => none
    | some s =>
      some { strike := s
             callMoney := colVal cols row "Chg in OI Value"
             callVWAP := colVal cols row "VWAP"
             callLTP := colVal cols row "LTP (Chg %)"
             putMoney := colVal cols row "Chg in OI Value.1"
             putVWAP := colVal cols row "VWAP.1"
             putLTP := colVal cols row "LTP (Chg %).1" }

/-- `df.drop_duplicates(subset=['Strike'])`: keeps the first record of
each strike. -/
def dedupBy (seen : List ℚ) : List DailyRecord → List DailyRecord
  | [] => []
  | r :: rest =>
    if r.strike ∈ seen then dedupBy seen rest
    else r :: dedupBy (r.strike :: seen) rest

/-- `process_sheet_data`: `none` when the header scan fails, when the
`Strike` column is missing (the `df['Strike']` `KeyError` lands in the
`except` branch) or when `Chg in OI Value` is missing (the explicit
`return None`).  Otherwise the rows below the header are normalized,
rows without a readable strike dropped, and duplicate strikes reduced to
their first occurrence. -/
def process_sheet_data (sheet : RawSheet) : Option DaySheet :=
  match findHeaderRow sheet with
  | none => none
  | some h =>
    if "Strike" ∈ sheetCols sheet ∧ "Chg in OI Value" ∈ sheetCols sheet then
      some (dedupBy [] ((sheet.drop (h + 1)).filterMap (buildRecord (sheetCols sheet))))
    else none

/-! ### Day-sheet selection and the whole-file pipeline -/

/-- The day-of-week prefixes of the regex
`^(tue|wed|thu|fri|mon|sun|sat)` (IGNORECASE). -/
def dayTokens : List String := ["tue", "wed", "thu", "fri", "mon", "sun", "sat"]

/-- The selection predicate of `get_day_sheets`: the name starts with a
day token case-insensitively and its lowercase form is not `total` or
`max`. -/
def isDaySheet (nm : String) : Bool :=
  (dayTokens.any (fun t => startsWithStr (lowerStr nm) t)) &&
    !(lowerStr nm == "total") && !(lowerStr nm == "max")

/-- `get_day_sheets`: the matching sheet names in stored order. -/
def get_day_sheets (names : List String) : List String :=
  names.filter isDaySheet

/-- An opened workbook: its sheets with their names, in stored order. -/
structure Workbook where
  sheets : List (String × RawSheet)

/-- The raw sheets selected by `get_day_sheets`, in order. -/
def selectedSheets (wb : Workbook) : List RawSheet :=
  (get_day_sheets (wb.sheets.map Prod.fst)).filterMap
    (fun nm => (wb.sheets.find? (fun p => p.fst == nm)).map Prod.snd)

/-- The per-sheet parse results of the selected day sheets, in order
(`None` entries are the sheets that failed to parse). -/
def parseResults (wb : Workbook) : List (Option DaySheet) :=
  (selectedSheets wb).map process_sheet_data

/-- The two derived report sheets: the `Total` table (per strike, its
day-by-day snapshots) and the `Max` table (per day, the call and put
ranked tables). -/
structure Output where
  totalTable : List (ℚ × List Snapshot)
  maxTable : List (List MaxRow × List MaxRow)
deriving DecidableEq, Repr

/-- Assembles both report tables from the parsed day sheets.  A day
sheet that failed to parse contributes an empty record list: the source
loop still emits its column block, with every strike treated as absent
that day. -/
def buildOutput (days : List DaySheet) : Output :=
  { totalTable := (strikeUniverse days).map (fun s => (s, snapshots days s))
    maxTable := (List.range days.length).map (fun k =>
      (top5Side (dayRows days Side.call (k + 1)) Side.call,
       top5Side (dayRows days Side.put (k + 1)) Side.put)) }

/-- `process_excel_file`: `none` models the `None` result — either the
workbook does not open (`pd.ExcelFile` raised, modelled as the `none`
input) or no selected sheet parsed (`if not all_data: return`).
Otherwise the complete output is built from every selected sheet. -/
def process_excel_file (wb? : Option Workbook) : Option Output :=
  match wb? with
  | none => none
  | some wb =>
    if (parseResults wb).all (fun r => r.isNone) then none
    else some (buildOutput ((parseResults wb).map (fun r => r.getD [])))

/-! ### Closed forms and spec-side definitions -/

/-- The reference prices of strike `s` on the given side over the days
`1..k` on which the strike has a record, in day order. -/
def presentRefs (days : List DaySheet) (s : ℚ) (side : Side) (k : ℕ) : List ℚ :=
  ((days.take k).filterMap (fun d => findRecord d s)).map
    (refPrice (pricingMode days s) side)

/-- Modelled from the spec: "Running-average reference price at day k =
mean of reference prices over the subset of days 1..k where that side's
reference price was > 0 for that strike; equals 0 if no such day has
occurred yet."  Days whose reference price is `≤ 0` contribute to
neither the numerator nor the denominator here, which is what the claim
asserts of the code. -/
def specRunningAvg (days : List DaySheet) (s : ℚ) (side : Side) (k : ℕ) : ℚ :=
  let pos := (presentRefs days s side k).filter (fun q => decide (0 < q))
  if pos.length = 0 then 0 else pos.sum / (pos.length : ℚ)

/-! ### Concrete inputs used by counterexamples and witnesses -/

/-- Day-1 record of the spec §8 scenario: strike 100, call money 50,
call VWAP 0, call LTP 10. -/
def exRec1 : DailyRecord := ⟨100, 50, 0, 10, 0, 0, 0⟩

/-- Day-2 record of the spec §8 scenario: strike 100, call money −20,
call VWAP 12, call LTP 11. -/
def exRec2 : DailyRecord := ⟨100, -20, 12, 11, 0, 0, 0⟩

/-- The two-day series of the spec §8 scenario. -/
def exDays : List DaySheet := [[exRec1], [exRec2]]

/-- Strike 100 under forced LTP with a negative day-1 LTP. -/
def negRec1 : DailyRecord := ⟨100, 0, 0, -5, 0, 0, 0⟩

/-- Strike 100 on day 2 with LTP 10. -/
def negRec2 : DailyRecord := ⟨100, 0, 0, 10, 0, 0, 0⟩

/-- A two-day series whose day-1 call reference price is negative. -/
def negDays : List DaySheet := [[negRec1], [negRec2]]

/-- The day-0 sheet of the late-strike series: only strike 100. -/
def lateDay0 : DaySheet := [⟨100, 1, 1, 1, 0, 0, 0⟩]

/-- Strike 200, first seen on day 1, with call VWAP 0. -/
def lateRec : DailyRecord := ⟨200, 5, 0, 7, 0, 0, 0⟩

/-- A series in which strike 200 has no day-0 record and first appears
on day 1 with call VWAP 0. -/
def lateDays : List DaySheet := [lateDay0, [lateRec]]

/-- A sheet whose header has `Strike` and `Chg in OI Value` but no
`VWAP`, `LTP (Chg %)` or put-side column. -/
def noVwapSheet : RawSheet :=
  [[Cell.text "Strike", Cell.text "Chg in OI Value"],
   [Cell.num 100, Cell.num 5]]

/-- A sheet with no header row at all. -/
def noHeaderSheet : RawSheet := [[Cell.text "hello"], [Cell.num 1]]

/-- A complete well-formed day sheet, with the put-side duplicate
columns that pandas mangles to `.1` names. -/
def exSheet : RawSheet :=
  [[Cell.text "Strike", Cell.text "Chg in OI Value", Cell.text "VWAP",
    Cell.text "LTP (Chg %)", Cell.text "Chg in OI Value", Cell.text "VWAP",
    Cell.text "LTP (Chg %)"],
   [Cell.num 100, Cell.num 50, Cell.num 0, Cell.num 10, Cell.num 30,
    Cell.num 2, Cell.num 3]]

/-- A workbook holding one parsable day sheet, one day sheet without a
header, and an old `Total` output sheet. -/
def exWb : Workbook :=
  ⟨[("tue6", exSheet), ("wed6", noHeaderSheet), ("Total", noHeaderSheet)]⟩

/-- A day sheet whose `VWAP` cell on the only data row is text and so
fails numeric coercion. -/
def textVwapSheet : RawSheet :=
  [[Cell.text "Strike", Cell.text "Chg in OI Value", Cell.text "VWAP",
    Cell.text "LTP (Chg %)"],
   [Cell.num 100, Cell.num 5, Cell.text "-", Cell.num 7]]

/-! ### Sorting lemmas: the stable descending sort -/

theorem insertDesc_perm {α : Type*} (key : α → ℚ) (x : α) (l : List α) :
    List.Perm (insertDesc key x l) (x :: l) := by
  induction l with
  | nil => exact List.Perm.refl _
  | cons y ys ih =>
    by_cases h : key y ≤ key x
    · simp only [insertDesc, if_pos h]
      exact List.Perm.refl _
    · simp only [insertDesc, if_neg h]
      exact (ih.cons y).trans (List.Perm.swap x y ys)

theorem sortDesc_perm {α : Type*} (key : α → ℚ) (l : List α) :
    List.Perm (sortDesc key l) l := by
  induction l with
  | nil => exact List.Perm.refl _
  | cons x xs ih =>
    simpa [sortDesc] using (insertDesc_perm key x (sortDesc key xs)).trans (ih.cons x)

/-! ### Fold lemmas: closed forms of the cumulative state -/

theorem foldState_money (mode : PricingMode) (side : Side) (s : ℚ)
    (st : SideState) (l : List DaySheet) :
    (foldState mode side s st l).money
      = st.money
        + (l.map (fun d => ((findRecord d s).map (fun r => r.money side)).getD 0)).sum := by
  induction l generalizing st with
  | nil => simp [foldState]
  | cons d rest ih =>
    cases hf : findRecord d s with
    | none => simp [foldState, hf, ih, SideState.step]
    | some r =>
      simp only [foldState, hf, SideState.step, ih, List.map_cons, List.sum_cons,
        Option.map_some', Option.getD_some]
      ring

theorem foldState_refSum (mode : PricingMode) (side : Side) (s : ℚ)
    (st : SideState) (l : List DaySheet) :
    (foldState mode side s st l).refSum
      = st.refSum
        + ((l.filterMap (fun d => findRecord d s)).map (refPrice mode side)).sum := by
  induction l generalizing st with
  | nil => simp [foldState]
  | cons d rest ih =>
    cases hf : findRecord d s with
    | none => simp [foldState, hf, ih, SideState.step, List.filterMap_cons]
    | some r =>
      simp only [foldState, hf, SideState.step, ih, List.filterMap_cons,
        List.map_cons, List.sum_cons]
      ring

theorem foldState_refCount (mode : PricingMode) (side : Side) (s : ℚ)
    (st : SideState) (l : List DaySheet) :
    (foldState mode side s st l).refCount
      = st.refCount
        + ((l.filterMap (fun d => findRecord d s)).map (refPrice mode side)).countP
            (fun q => decide (0 < q)) := by
  induction l generalizing st with
  | nil => simp [foldState]
  | cons d rest ih =>
    cases hf : findRecord d s with
    | none => simp [foldState, hf, ih, SideState.step, List.filterMap_cons]
    | some r =>
      simp only [foldState, hf, SideState.step, ih, List.filterMap_cons,
        List.map_cons, List.countP_cons]
      by_cases hp : 0 < refPrice mode side r
      · simp only [if_pos hp, decide_eq_true_eq, hp, List.countP_cons_of_pos]
        omega
      · simp only [List.countP_cons, decide_eq_true_eq, hp, if_false]
        omega

/-! ### Snapshot-loop lemmas -/

theorem snapsFrom_getElem? (mode : PricingMode) (s : ℚ) (cst pst : SideState)
    (l : List DaySheet) (k : ℕ) (hk : k < l.length) :
    (snapsFrom mode s cst pst l)[k]?
      = some (mkSnapshot s (foldState mode Side.call s cst (l.take (k + 1)))
                           (foldState mode Side.put s pst (l.take (k + 1)))) := by
  induction l generalizing k cst pst with
  | nil => simp at hk
  | cons d rest ih =>
    cases k with
    | zero => simp [snapsFrom, foldState]
    | succ k =>
      have hk' : k < rest.length := by simpa using hk
      simpa [snapsFrom, foldState] using ih _ _ k hk'

theorem snapshots_getElem? (days : List DaySheet) (s : ℚ) (k : ℕ)
    (hk : k < days.length) :
    (snapshots days s)[k]?
      = some (mkSnapshot s (stateAfter days s Side.call (k + 1))
                           (stateAfter days s Side.put (k + 1))) :=
  snapsFrom_getElem? (pricingMode days s) s SideState.init SideState.init days k hk

/-! ### Membership lemmas for the ranked tables -/

theorem mem_dayRows {days : List DaySheet} {side : Side} {k : ℕ} {r : SnapRow}
    (h : r ∈ dayRows days side k) :
    r.money = (stateAfter days r.strike side k).money
      ∧ r.ref = (stateAfter days r.strike side k).avg := by
  rcases List.mem_map.mp h with ⟨s, _, rfl⟩
  exact ⟨rfl, rfl⟩

theorem mem_top5_data {rows : List SnapRow} {side : Side} {stk m ref bep : ℚ}
    (h : MaxRow.data stk m ref bep ∈ top5Side rows side) :
    ∃ r ∈ rows, r.strike = stk ∧ r.money = m ∧ r.ref = ref
      ∧ bep = bepOf side stk ref := by
  simp only [top5Side, List.mem_append] at h
  rcases h with (h | h) | h
  · rcases List.mem_map.mp h with ⟨r, hr, heq⟩
    injection heq with h1 h2 h3 h4
    refine ⟨r, ?_, h1, h2, h3, by rw [← h4, h1, h3]⟩
    have hr2 : r ∈ (sortDesc (fun r => r.money) rows).take 5 :=
      (sortDesc_perm (fun r => r.strike) _).subset hr
    exact (sortDesc_perm (fun r => r.money) rows).subset
      ((List.take_sublist 5 _).subset hr2)
  · rcases List.mem_replicate.mp h with ⟨-, heq⟩
    cases heq
  · rcases List.mem_singleton.mp h with heq
    cases heq

/-! ### Claim theorems -/

/-- C1: for a strike whose first chronological day (its earliest record
in sheet order) has call VWAP ≤ 0, the pricing mode is ForceLTP and the
reference price the aggregation uses — on every day, on both sides — is
that day's LTP, never the VWAP, even when the VWAP is positive; for a
strike whose first-day call VWAP is > 0 the mode is Standard and each
day's reference price is its VWAP when positive, else its LTP. -/
theorem c1_theorem (days : List DaySheet) (s : ℚ) (r : DailyRecord)
    (h : firstRecord days s = some r) :
    (r.callVWAP ≤ 0 →
      pricingMode days s = PricingMode.forceLTP
      ∧ (∀ side rec, refPrice (pricingMode days s) side rec = rec.ltp side)
      ∧ (∀ side st rec,
          (SideState.step (pricingMode days s) side st (some rec)).refSum
            = st.refSum + rec.ltp side))
    ∧ (0 < r.callVWAP →
      pricingMode days s = PricingMode.standard
      ∧ (∀ side rec, refPrice (pricingMode days s) side rec
            = if 0 < rec.vwap side then rec.vwap side else rec.ltp side)) := by
  constructor
  · intro hle
    have hm : pricingMode days s = PricingMode.forceLTP := by
      simp [pricingMode, h, hle]
    refine ⟨hm, fun side rec => by rw [hm]; rfl, fun side st rec => by rw [hm]; rfl⟩
  · intro hlt
    have hm : pricingMode days s = PricingMode.standard := by
      simp [pricingMode, h, not_le.mpr hlt]
    exact ⟨hm, fun side rec => by rw [hm]; rfl⟩

/-- Witness for C1 on the spec §8 scenario: strike 100's first day has
call VWAP 0, so the mode is ForceLTP. -/
theorem c1_witness : pricingMode exDays 100 = PricingMode.forceLTP :=
  ((c1_theorem exDays 100 exRec1 (by decide)).1 (by decide)).1

/-- C2 counterexample: with a negative day-1 call LTP under forced LTP,
the code's running average after day 2 is 5 (the negative reference
price was added to the running sum), while the claimed mean over the
positive-reference days is 10. -/
theorem c2_counterexample :
    (stateAfter negDays 100 Side.call 2).avg = 5
    ∧ specRunningAvg negDays 100 Side.call 2 = 10
    ∧ (stateAfter negDays 100 Side.call 2).avg
        ≠ specRunningAvg negDays 100 Side.call 2 := by
  have h1 : (stateAfter negDays 100 Side.call 2).avg = 5 := by
    norm_num [stateAfter, foldState, SideState.step, SideState.avg, SideState.init,
      findRecord, List.find?, pricingMode, firstRecord, refPrice, DailyRecord.ltp,
      DailyRecord.vwap, DailyRecord.money, negDays, negRec1, negRec2]
  have h2 : specRunningAvg negDays 100 Side.call 2 = 10 := by
    norm_num [specRunningAvg, presentRefs, findRecord, List.find?, pricingMode,
      firstRecord, refPrice, DailyRecord.ltp, DailyRecord.vwap, negDays, negRec1,
      negRec2, List.filterMap_cons, List.filter]
  exact ⟨h1, h2, by rw [h1, h2]; norm_num⟩

/-- C2 amended: after day k, the running reference sum holds EVERY
present day's reference price (days with reference price ≤ 0 included),
while the count holds only the days whose reference price was strictly
positive; the running average is that sum divided by that count, and 0
when the count is 0.  (It coincides with the claimed positive-subset
mean whenever no reference price is negative.) -/
theorem c2_theorem (days : List DaySheet) (s : ℚ) (side : Side) (k : ℕ) :
    (stateAfter days s side k).refSum = (presentRefs days s side k).sum
    ∧ (stateAfter days s side k).refCount
        = (presentRefs days s side k).countP (fun q => decide (0 < q))
    ∧ (stateAfter days s side k).avg
        = (if (presentRefs days s side k).countP (fun q => decide (0 < q)) = 0
           then 0
           else (presentRefs days s side k).sum
                / ((presentRefs days s side k).countP (fun q => decide (0 < q)) : ℚ)) := by
  have h1 := foldState_refSum (pricingMode days s) side s SideState.init (days.take k)
  have h2 := foldState_refCount (pricingMode days s) side s SideState.init (days.take k)
  refine ⟨?_, ?_, ?_⟩
  · simpa [stateAfter, SideState.init, presentRefs] using h1
  · simpa [stateAfter, SideState.init, presentRefs] using h2
  · have hs : (stateAfter days s side k).refSum = (presentRefs days s side k).sum := by
      simpa [stateAfter, SideState.init, presentRefs] using h1
    have hc : (stateAfter days s side k).refCount
        = (presentRefs days s side k).countP (fun q => decide (0 < q)) := by
      simpa [stateAfter, SideState.init, presentRefs] using h2
    rw [SideState.avg, hs, hc]

/-- C3: cumulative money of a strike after day k is the plain sum of its
per-day money over days 1..k, an absent day contributing 0, negative
contributions added unconditionally — concretely, on the spec scenario
the cumulative call money drops from 50 to 30. -/
theorem c3_theorem :
    (∀ (days : List DaySheet) (s : ℚ) (side : Side) (k : ℕ),
        (stateAfter days s side k).money
          = ((days.take k).map
              (fun d => ((findRecord d s).map (fun r => r.money side)).getD 0)).sum)
    ∧ (stateAfter exDays 100 Side.call 2).money < (stateAfter exDays 100 Side.call 1).money := by
  constructor
  · intro days s side k
    simpa [stateAfter, SideState.init] using
      foldState_money (pricingMode days s) side s SideState.init (days.take k)
  · norm_num [stateAfter, foldState, SideState.step, SideState.init, findRecord,
      List.find?, pricingMode, firstRecord, refPrice, DailyRecord.ltp,
      DailyRecord.vwap, DailyRecord.money, exDays, exRec1, exRec2]

/-- C5 counterexample: strike 200 has no record on day 0 of `lateDays`,
yet its pricing mode is not Standard (its first appearance, day 1, has
call VWAP 0, so the code assigns ForceLTP). -/
theorem c5_counterexample :
    findRecord (lateDays.getD 0 []) 200 = none
    ∧ pricingMode lateDays 200 ≠ PricingMode.standard := by
  refine ⟨by decide, by decide⟩

/-- C5 amended: the pricing mode is decided by the strike's EARLIEST
record in day order, not by day 0: a strike absent on day 0 takes the
mode from its first later record (ForceLTP iff that record's call VWAP
is ≤ 0); only a strike with no record on any day defaults to
Standard. -/
theorem c5_theorem :
    (∀ (d0 : DaySheet) (rest : List DaySheet) (s : ℚ) (r : DailyRecord),
        findRecord d0 s = none → firstRecord rest s = some r →
        pricingMode (d0 :: rest) s
          = if r.callVWAP ≤ 0 then PricingMode.forceLTP else PricingMode.standard)
    ∧ (∀ (days : List DaySheet) (s : ℚ),
        firstRecord days s = none → pricingMode days s = PricingMode.standard) := by
  constructor
  · intro d0 rest s r h0 h1
    simp [pricingMode, firstRecord, h0, h1]
  · intro days s h
    simp [pricingMode, h]

/-- Witness for C5 (amended): strike 200 of `lateDays` takes ForceLTP
from its day-1 record. -/
theorem c5_witness : pricingMode lateDays 200 = PricingMode.forceLTP := by
  have h : pricingMode lateDays 200
      = if lateRec.callVWAP ≤ 0 then PricingMode.forceLTP else PricingMode.standard :=
    c5_theorem.1 lateDay0 [[lateRec]] 200 lateRec (by decide) (by decide)
  rw [h]
  decide

/-- C9: the day-sheet selector keeps exactly the sheet names that start
with a case-insensitive day-of-week token and are not literally `total`
or `max` in lower case, preserving stored order (the result is a
sublist); in particular a sheet named `Total` or `Max` in any letter
case is never selected. -/
theorem c9_theorem (names : List String) :
    List.Sublist (get_day_sheets names) names
    ∧ (∀ nm, nm ∈ get_day_sheets names
        ↔ nm ∈ names
          ∧ (dayTokens.any (fun t => startsWithStr (lowerStr nm) t)) = true
          ∧ lowerStr nm ≠ "total" ∧ lowerStr nm ≠ "max")
    ∧ (∀ nm, lowerStr nm = "total" ∨ lowerStr nm = "max" →
        nm ∉ get_day_sheets names) := by
  refine ⟨List.filter_sublist _, ?_, ?_⟩
  · intro nm
    simp [get_day_sheets, List.mem_filter, isDaySheet, Bool.and_eq_true,
      Bool.not_eq_true', beq_eq_false_iff_ne, and_assoc]
  · intro nm h hmem
    have h2 := (List.mem_filter.mp hmem).2
    simp only [isDaySheet, Bool.and_eq_true, Bool.not_eq_true',
      beq_eq_false_iff_ne, ne_eq] at h2
    rcases h with h | h
    · exact h2.1.2 h
    · exact h2.2 h

/-- Witness for C9: a sheet named `Total` is not selected even when
present in the workbook's name list. -/
theorem c9_witness : "Total" ∉ get_day_sheets ["tue6", "Total", "Max"] :=
  (c9_theorem _).2.2 _ (Or.inl (by decide))

/-- C10: a money, VWAP or LTP cell that is missing (absent column or
absent cell) or fails numeric coercion contributes exactly 0 to the
record handed to the core, for every one of the six value columns; and a
strike whose first-day call VWAP is 0 — as a missing or non-numeric
VWAP cell is recorded — is put in ForceLTP mode. -/
theorem c10_theorem :
    (∀ (cols : List String) (row : List Cell) (name : String),
        cols.findIdx? (fun c => c == name) = none → colVal cols row name = 0)
    ∧ (∀ (cols : List String) (row : List Cell) (name : String) (i : ℕ),
        cols.findIdx? (fun c => c == name) = some i →
        (row.getD i Cell.empty).toNum? = none → colVal cols row name = 0)
    ∧ (∀ (cols : List String) (row : List Cell) (rec : DailyRecord),
        buildRecord cols row = some rec →
        rec.callMoney = colVal cols row "Chg in OI Value"
        ∧ rec.callVWAP = colVal cols row "VWAP"
        ∧ rec.callLTP = colVal cols row "LTP (Chg %)"
        ∧ rec.putMoney = colVal cols row "Chg in OI Value.1"
        ∧ rec.putVWAP = colVal cols row "VWAP.1"
        ∧ rec.putLTP = colVal cols row "LTP (Chg %).1")
    ∧ (∀ (days : List DaySheet) (s : ℚ) (r : DailyRecord),
        firstRecord days s = some r → r.callVWAP = 0 →
        pricingMode days s = PricingMode.forceLTP) := by
  refine ⟨?_, ?_, ?_, ?_⟩
  · intro cols row name h
    simp [colVal, h]
  · intro cols row name i h1 h2
    simp only [colVal, h1]
    rw [h2]
    rfl
  · intro cols row rec h
    simp only [buildRecord] at h
    split at h
    · cases h
    · split at h
      · cases h
      · injection h with h'
        subst h'
        exact ⟨rfl, rfl, rfl, rfl, rfl, rfl⟩
  · intro days s r h h0
    simp [pricingMode, h, h0]

/-- Witness for C10: a text `VWAP` cell yields 0 in the record, and a
first-day record whose call VWAP is 0 forces LTP mode. -/
theorem c10_witness :
    colVal ["Strike", "Chg in OI Value", "VWAP", "LTP (Chg %)"]
        [Cell.num 100, Cell.num 5, Cell.text "-", Cell.num 7] "VWAP" = 0
    ∧ pricingMode [[⟨100, 5, 0, 7, 0, 0, 0⟩]] 100 = PricingMode.forceLTP :=
  ⟨c10_theorem.2.1 _ _ "VWAP" 2 (by decide) (by decide),
   c10_theorem.2.2.2 [[⟨100, 5, 0, 7, 0, 0, 0⟩]] 100 ⟨100, 5, 0, 7, 0, 0, 0⟩
     (by decide) (by decide)⟩

/-- C6 counterexample: a sheet whose header has `Strike` and `Chg in OI
Value` but lacks the required `VWAP` column is NOT skipped — it parses,
contradicting the claim that any missing required column skips the
sheet. -/
theorem c6_counterexample :
    (process_sheet_data noVwapSheet).isSome = true
    ∧ "VWAP" ∉ sheetCols noVwapSheet := by
  refine ⟨by decide, by decide⟩

/-- C6 amended: a sheet is skipped (parses to `none`) exactly when its
header row is not found in the first 10 rows, or the `Strike` column is
missing, or the call-side `Chg in OI Value` column is missing; a missing
`VWAP`, `LTP (Chg %)` or put-side `.1` column merely defaults to 0.  A
skipped sheet is never fatal on its own: as long as not every selected
sheet fails, the pipeline still produces an output. -/
theorem c6_theorem :
    (∀ sheet : RawSheet,
        process_sheet_data sheet = none
          ↔ findHeaderRow sheet = none
            ∨ "Strike" ∉ sheetCols sheet
            ∨ "Chg in OI Value" ∉ sheetCols sheet)
    ∧ (∀ wb : Workbook,
        ¬ ((parseResults wb).all (fun r => r.isNone) = true) →
        ∃ out, process_excel_file (some wb) = some out) := by
  constructor
  · intro sheet
    cases hh : findHeaderRow sheet with
    | none =>
      simp [process_sheet_data, hh]
    | some h =>
      by_cases hc : "Strike" ∈ sheetCols sheet ∧ "Chg in OI Value" ∈ sheetCols sheet
      · simp [process_sheet_data, hh, hc]
      · have hnone : process_sheet_data sheet = none := by
          simp [process_sheet_data, hh, hc]
        simp [hnone, hh, not_and_or.mp hc]
  · intro wb h
    exact ⟨buildOutput ((parseResults wb).map (fun r => r.getD [])),
      by simp [process_excel_file, h]⟩

/-- Witness for C6 (amended): `noVwapSheet` is not skipped (header and
both call-side columns present), while a sheet without a header row is;
and a workbook with one good and one bad day sheet still produces an
output. -/
theorem c6_witness :
    process_sheet_data noHeaderSheet = none
    ∧ ∃ out, process_excel_file (some exWb) = some out :=
  ⟨(c6_theorem.1 noHeaderSheet).mpr (Or.inl (by decide)),
   c6_theorem.2 exWb (by decide)⟩

/-- C7: the pipeline returns `none` exactly when the workbook does not
open or every selected day sheet fails to parse (including the case of
zero selected sheets); otherwise it returns the complete assembled
output — never a partial result. -/
theorem c7_theorem (wb? : Option Workbook) :
    (process_excel_file wb? = none
      ↔ wb? = none
        ∨ ∃ wb, wb? = some wb ∧ (parseResults wb).all (fun r => r.isNone) = true)
    ∧ (∀ wb, wb? = some wb → (parseResults wb).all (fun r => r.isNone) = false →
        process_excel_file wb?
          = some (buildOutput ((parseResults wb).map (fun r => r.getD [])))) := by
  constructor
  · cases wb? with
    | none => simp [process_excel_file]
    | some wb =>
      by_cases h : (parseResults wb).all (fun r => r.isNone) = true
      · constructor
        · intro _
          exact Or.inr ⟨wb, rfl, h⟩
        · intro _
          simp only [process_excel_file, if_pos h]
      · constructor
        · intro hcontra
          have hsome : process_excel_file (some wb)
              = some (buildOutput ((parseResults wb).map (fun r => r.getD []))) := by
            simp only [process_excel_file, if_neg h]
          rw [hsome] at hcontra
          cases hcontra
        · rintro (hcontra | ⟨wb', heq, hall⟩)
          · cases hcontra
          · injection heq with heq'
            subst heq'
            exact absurd hall h
  · rintro wb rfl h
    simp [process_excel_file, h]

/-- Witness for C7: `exWb` (one parsable day sheet, one failing one)
yields the complete output of its parse results. -/
theorem c7_witness :
    process_excel_file (some exWb)
      = some (buildOutput ((parseResults exWb).map (fun r => r.getD []))) :=
  (c7_theorem (some exWb)).2 exWb rfl (by decide)

/-- C8: for every day boundary, the `Total` table's break-even prices of
a strike are the strike plus/minus that day's running-average reference
price recomputed from the cumulative state through that day, and every
ranked data row of the `Max` table satisfies `bep = strike ± ref` where
`ref` is exactly that strike's day-k running-average reference price. -/
theorem c8_theorem (days : List DaySheet) (s : ℚ) (k : ℕ) (hk : k < days.length) :
    ((snapshots days s)[k]?).map (fun sn => sn.ceBEP)
        = some (s + (stateAfter days s Side.call (k + 1)).avg)
    ∧ ((snapshots days s)[k]?).map (fun sn => sn.peBEP)
        = some (s - (stateAfter days s Side.put (k + 1)).avg)
    ∧ (∀ stk m ref bep,
        MaxRow.data stk m ref bep ∈ top5Side (dayRows days Side.call (k + 1)) Side.call →
        bep = stk + ref ∧ ref = (stateAfter days stk Side.call (k + 1)).avg)
    ∧ (∀ stk m ref bep,
        MaxRow.data stk m ref bep ∈ top5Side (dayRows days Side.put (k + 1)) Side.put →
        bep = stk - ref ∧ ref = (stateAfter days stk Side.put (k + 1)).avg) := by
  refine ⟨?_, ?_, ?_, ?_⟩
  · rw [snapshots_getElem? days s k hk]
    rfl
  · rw [snapshots_getElem? days s k hk]
    rfl
  · intro stk m ref bep h
    obtain ⟨r, hr, h1, h2, h3, h4⟩ := mem_top5_data h
    obtain ⟨-, href⟩ := mem_dayRows hr
    exact ⟨by rw [h4]; rfl, by rw [← h3, href, h1]⟩
  · intro stk m ref bep h
    obtain ⟨r, hr, h1, h2, h3, h4⟩ := mem_top5_data h
    obtain ⟨-, href⟩ := mem_dayRows hr
    exact ⟨by rw [h4]; rfl, by rw [← h3, href, h1]⟩

/-- Witness for C8 on the spec §8 scenario at day 1 (index 0). -/
theorem c8_witness :
    ((snapshots exDays 100)[0]?).map (fun sn => sn.ceBEP)
      = some (100 + (stateAfter exDays 100 Side.call 1).avg) :=
  (c8_theorem exDays 100 0 (by decide)).1

end NiftyLevels
